import Mathlib

/-!
Shallow embedding of `packages/permissionless/accounts/light/toLightSmartAccount.ts`
(permissionless.js, Light Account variant), and proofs about it.

Modelling conventions:
* `Addr` and byte strings are `Nat` / `List Nat`; a hex string "0x.." is its byte list
  (so the empty hex "0x" is `[]`).
* The trusted collaborators (viem's ABI encoding, keccak/EIP-712 hashing, the owner's
  signing key, `getUserOperationHash`) are modelled symbolically: each is an injective
  constructor of an inductive type, which is exactly the abstraction the spec assigns
  them ("assumed to be provided by a trusted library").
* The account closure's mutable variables (`accountAddress`, `chainId`) are an explicit
  `AccountState` record threaded through each operation; network/signing interactions
  are recorded in a `List Effect` trace so that "no network call" / "no signature was
  requested" are statable.  Responses of the external transport are a deterministic
  `Env` record.
* JavaScript truthiness is modelled where the source relies on it: `let chainId: number`
  starts `undefined` and `if (chainId)` is false both for `undefined` and for `0`
  (`jsTruthyNum`); a set `Address` string is always truthy, so `accountAddress` is an
  `Option`.  The runtime `version` string is a plain `String`, since the `switch`
  statements in the source have a reachable `default` branch.
-/

deriving instance DecidableEq for Except

abbrev Addr := Nat

abbrev Bytes := List Nat

/-- Entry-point protocol versions "0.6" and "0.7". -/
inductive EPVersion where
  | v06
  | v07
deriving DecidableEq, Repr

/-- The two entry-point ABI constants imported from viem/account-abstraction. -/
inductive EPAbi where
  | entryPoint06Abi
  | entryPoint07Abi
deriving DecidableEq, Repr

/-- viem's `entryPoint07Address` constant. -/
def entryPoint07Address : Addr := 0x0000000071727De22E5E9d8BAf0edAc6f37da032

/-- Outputs of `encodeFunctionData`, symbolic: the ABI encoder is a trusted external
collaborator, so each (abi, functionName, args) triple is an injective constructor. -/
inductive CallData where
  | execute (dest : Addr) (value : Nat) (func : Bytes)
  | executeBatch (dest : List Addr) (value : List Nat) (func : List Bytes)
  | createAccount (owner : Addr) (salt : Nat)
deriving DecidableEq, Repr

/-- Errors a JS runtime can surface from this module: `Error(msg)` thrown by the code,
or a `TypeError` from accessing a property of `undefined`.  `invalidInput` is the
dedicated error class the spec names; the source never constructs it. -/
inductive JsError where
  | error (msg : String)
  | typeError (msg : String)
  | invalidInput (msg : String)
deriving DecidableEq, Repr

/-- Observable interactions with the external collaborators. -/
inductive Effect where
  | fetchChainId
  | senderAddressSim
  | readNonce
  | ownerSignTypedData
  | ownerSignRaw
deriving DecidableEq, Repr

/-- Network round trips (chain-id fetch, sender-address simulation, nonce read). -/
def Effect.isNetwork : Effect → Bool
  | .fetchChainId => true
  | .senderAddressSim => true
  | .readNonce => true
  | _ => false

/-- Requests made to the owner's signing key. -/
def Effect.isSign : Effect → Bool
  | .ownerSignTypedData => true
  | .ownerSignRaw => true
  | _ => false

/-- One element of the `calls` array passed to `encodeCalls`:
`{ to, value?, data? }`.  The source's `to` property is named `dest` here (after
the ABI parameter) because `to` is reserved in Lean. -/
structure CallStruct where
  dest : Addr
  value : Option Nat
  data : Option Bytes
deriving DecidableEq, Repr

/-- A user operation.  Only the `signature` field is inspected by this module; the
remaining fields are carried through opaquely to the hash collaborator. -/
structure UserOp where
  sender : Addr := 0
  nonce : Nat := 0
  callData : Option CallData := none
  factory : Option Addr := none
  factoryData : Option CallData := none
  signature : Bytes := []
deriving DecidableEq, Repr

/-- 32-byte digests produced by the trusted hash collaborators, symbolic:
`hashMessage` (EIP-191), `hashTypedData` (EIP-712, typed data opaque), and
viem's `getUserOperationHash` keyed by operation, entry-point address,
entry-point version and chain id. -/
inductive Digest where
  | hashMessage (message : Bytes)
  | hashTypedData (typedData : Nat)
  | userOpHash (userOperation : UserOp) (entryPointAddress : Addr)
      (entryPointVersion : EPVersion) (chainId : Nat)
deriving DecidableEq, Repr

/-- Raw signatures produced by the owner key, symbolic: `owner.signTypedData` over the
LightAccount wrapper domain, or viem's `signMessage` action over a raw digest. -/
inductive Sig where
  | typedDataSig (chainId : Nat) (name : String) (verifyingContract : Addr)
      (domainVersion : String) (message : Digest)
  | rawSig (message : Digest)
deriving DecidableEq, Repr

/-- A signature as returned to the caller: either the raw owner signature, or
`concat([tag, signature])`. -/
inductive SigVal where
  | plain (s : Sig)
  | tagged (tag : Bytes) (s : Sig)
deriving DecidableEq, Repr

/-- `signWith1271WrapperV1`: the owner signs the EIP-712 `LightAccountMessage`
structure whose domain is `{ chainId, name: "LightAccount", verifyingContract:
accountAddress, version: "1" }` over the already-hashed message. -/
def signWith1271WrapperV1 (chainId : Nat) (accountAddress : Addr)
    (hashedMessage : Digest) : Sig :=
  .typedDataSig chainId "LightAccount" accountAddress "1" hashedMessage

/-- `getAccountInitCode(owner, index)`: throws when `owner` is absent, otherwise
ABI-encodes `createAccount(owner, salt)`. -/
def getAccountInitCode (owner : Option Addr) (index : Nat) : Except JsError CallData :=
  match owner with
  | none => .error (.error "Owner account not found")
  | some o => .ok (.createAccount o index)

/-- `LIGHT_VERSION_TO_ADDRESSES_MAP[version].factoryAddress`; `none` models the
`undefined` lookup for a key outside the map. -/
def lightVersionFactory : String → Option Addr
  | "1.1.0" => some 0x00004EC70002a32400f8ae005A26081065620D20
  | "2.0.0" => some 0x0000000000400CdFef5E2714E63d8040b700BC24
  | _ => none

/-- `getDefaultAddresses`: `_factoryAddress ?? MAP[version].factoryAddress`.
`??` short-circuits, so the map is only read when no explicit factory address is
given; reading `.factoryAddress` off an `undefined` map entry is a `TypeError`. -/
def getDefaultAddresses (version : String) (factoryAddress : Option Addr) :
    Except JsError Addr :=
  match factoryAddress with
  | some a => .ok a
  | none =>
    match lightVersionFactory version with
    | some a => .ok a
    | none => .error (.typeError "Cannot read properties of undefined")

/-- The caller-supplied `parameters.entryPoint` object.  The runtime reads each field
through optional chaining with a `??` fallback, so each is modelled optional. -/
structure EPParams where
  address : Option Addr := none
  abi : Option EPAbi := none
  version : Option EPVersion := none
deriving DecidableEq, Repr

/-- The resolved `entryPoint` record built inside `toLightSmartAccount`. -/
structure EntryPoint where
  address : Addr
  abi : EPAbi
  version : EPVersion
deriving DecidableEq, Repr

/-- `toLightSmartAccount`'s construction of `entryPoint`.  The source expression is

  `parameters.entryPoint?.abi ?? (parameters.entryPoint?.version ?? "0.7") === "0.6"
      ? entryPoint06Abi : entryPoint07Abi`

and in JavaScript `??` binds tighter than the conditional operator, so the whole
`abi ?? (version-is-0.6)` value is the ternary's condition: a supplied abi (an array,
hence truthy) selects `entryPoint06Abi` unconditionally, and only when no abi is
supplied does the version comparison decide. -/
def mkEntryPoint (ep : Option EPParams) : EntryPoint :=
  { address := (ep.bind (·.address)).getD entryPoint07Address
    abi :=
      match ep.bind (·.abi) with
      | some _ => .entryPoint06Abi
      | none =>
        if (ep.bind (·.version)).getD .v07 = .v06 then
          .entryPoint06Abi
        else
          .entryPoint07Abi
    version := (ep.bind (·.version)).getD .v07 }

/-- The parameters of `toLightSmartAccount`.  `clientChain` is `client.chain?.id`
(the statically known chain id, when the client has one); `owner` is the
`LocalAccount`'s address (a required parameter). -/
structure Params where
  clientChain : Option Nat := none
  entryPoint : Option EPParams := none
  owner : Addr
  version : String
  factoryAddress : Option Addr := none
  index : Option Nat := none
  address : Option Addr := none
  nonceKey : Option Nat := none
deriving DecidableEq, Repr

/-- The immutable data captured by the closures `toLightSmartAccount` returns. -/
structure Account where
  clientChain : Option Nat
  entryPoint : EntryPoint
  ownerAddress : Addr
  version : String
  factoryAddress : Addr
  index : Nat
  nonceKey : Option Nat
deriving DecidableEq, Repr

/-- The closure's mutable variables: `accountAddress` (initially the explicit
`address` parameter) and `chainId` (initially `undefined`). -/
structure AccountState where
  accountAddress : Option Addr
  chainId : Option Nat
deriving DecidableEq, Repr

/-- Deterministic responses of the external transport: `getChainId`,
`getSenderAddress(factory, factoryData, entryPointAddress)`, `getAccountNonce`. -/
structure Env where
  fetchChainId : Nat
  senderAddress : Addr → CallData → Addr → Addr
  readNonce : Addr → Addr → Option Nat → Nat

/-- `toLightSmartAccount(parameters)`: resolves the entry point and the factory
address, and seeds the mutable state.  Fails (at construction, before any network
call) exactly when the version is outside the factory map and no explicit factory
address was supplied. -/
def toLightSmartAccount (p : Params) : Except JsError (Account × AccountState) := do
  let entryPoint := mkEntryPoint p.entryPoint
  let factoryAddress ← getDefaultAddresses p.version p.factoryAddress
  .ok ({ clientChain := p.clientChain
         entryPoint := entryPoint
         ownerAddress := p.owner
         version := p.version
         factoryAddress := factoryAddress
         index := p.index.getD 0
         nonceKey := p.nonceKey },
       { accountAddress := p.address, chainId := none })

/-- JavaScript truthiness of the `let chainId: number` variable: `undefined` and `0`
are both falsy. -/
def jsTruthyNum : Option Nat → Bool
  | none => false
  | some n => n != 0

/-- `getMemoizedChainId`: returns the cached id when truthy, else takes
`client.chain.id` when the client knows its chain statically, else fetches via the
`getChainId` action; either way the result is stored back into the cache. -/
def getMemoizedChainId (acc : Account) (env : Env) (s : AccountState) :
    Nat × AccountState × List Effect :=
  if jsTruthyNum s.chainId then
    (s.chainId.getD 0, s, [])
  else
    match acc.clientChain with
    | some cid => (cid, { s with chainId := some cid }, [])
    | none => (env.fetchChainId, { s with chainId := some env.fetchChainId },
               [.fetchChainId])

/-- `getFactoryArgs`: the resolved factory address plus the `createAccount` init
code.  The owner is a required `LocalAccount`, so `getAccountInitCode`'s
owner-missing guard cannot fire here (see `getFactoryArgs_agrees`). -/
def getFactoryArgs (acc : Account) : Addr × CallData :=
  (acc.factoryAddress, .createAccount acc.ownerAddress acc.index)

/-- `getAddress`: the memoized address when set (an `Address` string is always
truthy), else one `getSenderAddress` simulation whose result is cached. -/
def getAddress (acc : Account) (env : Env) (s : AccountState) :
    Addr × AccountState × List Effect :=
  match s.accountAddress with
  | some a => (a, s, [])
  | none =>
    let (factory, factoryData) := getFactoryArgs acc
    let a := env.senderAddress factory factoryData acc.entryPoint.address
    (a, { s with accountAddress := some a }, [.senderAddressSim])

/-- `encodeCalls(calls)`: more than one call encodes `executeBatch` over the three
mapped arrays; otherwise the source reads `calls[0].to`, which on an empty array is
a property access on `undefined`.  The second component is the (empty) trace of
external interactions: the encoder is pure. -/
def encodeCalls (calls : List CallStruct) :
    Except JsError CallData × List Effect :=
  if calls.length > 1 then
    (.ok (.executeBatch (calls.map (·.dest))
        (calls.map (fun a => a.value.getD 0))
        (calls.map (fun a => a.data.getD []))), [])
  else
    match calls with
    | [] => (.error (.typeError "Cannot read properties of undefined"), [])
    | c :: _ => (.ok (.execute c.dest (c.value.getD 0) (c.data.getD [])), [])

/-- The 65-byte constant placeholder signature in `getStubSignature`
("0xffff…f0000…07aaa…a1c"). -/
def stubSignatureBytes : Bytes :=
  List.replicate 15 0xff ++ [0xf0] ++ List.replicate 16 0x00 ++ [0x7a]
    ++ List.replicate 31 0xaa ++ [0x1c]

/-- `getStubSignature`: the constant placeholder, version-tagged.  It reads neither
the environment nor the state and performs no external interaction. -/
def getStubSignature (acc : Account) (_env : Env) (s : AccountState) :
    Except JsError Bytes × AccountState × List Effect :=
  let signature := stubSignatureBytes
  (if acc.version = "1.1.0" then .ok signature
   else if acc.version = "2.0.0" then .ok (0x00 :: signature)
   else .error (.error "Unknown Light Account version"), s, [])

/-- `signMessage({ message })`: chain id, then the memoized address, then the owner
signs the 1271 wrapper over `hashMessage(message)`, then the version switch. -/
def accSignMessage (acc : Account) (env : Env) (s : AccountState) (message : Bytes) :
    Except JsError SigVal × AccountState × List Effect :=
  let (cid, s1, e1) := getMemoizedChainId acc env s
  let (addr, s2, e2) := getAddress acc env s1
  let signature := signWith1271WrapperV1 cid addr (.hashMessage message)
  let es := e1 ++ e2 ++ [.ownerSignTypedData]
  (if acc.version = "1.1.0" then .ok (.plain signature)
   else if acc.version = "2.0.0" then .ok (.tagged [0x00] signature)
   else .error (.error "Unknown Light Account version"), s2, es)

/-- `signTypedData(typedData)`: as `signMessage` but over `hashTypedData`. -/
def accSignTypedData (acc : Account) (env : Env) (s : AccountState) (typedData : Nat) :
    Except JsError SigVal × AccountState × List Effect :=
  let (cid, s1, e1) := getMemoizedChainId acc env s
  let (addr, s2, e2) := getAddress acc env s1
  let signature := signWith1271WrapperV1 cid addr (.hashTypedData typedData)
  let es := e1 ++ e2 ++ [.ownerSignTypedData]
  (if acc.version = "1.1.0" then .ok (.plain signature)
   else if acc.version = "2.0.0" then .ok (.tagged [0x00] signature)
   else .error (.error "Unknown Light Account version"), s2, es)

/-- The parameters of `signUserOperation`: an optional explicit chain id plus the
unsigned operation (`const { chainId = await getMemoizedChainId(), ...userOperation }
= parameters`; the destructuring default fires only when `chainId` is absent). -/
structure SignUserOpParams where
  chainId : Option Nat := none
  userOperation : UserOp := {}
deriving DecidableEq, Repr

/-- `signUserOperation(parameters)`: resolve the chain id, hash the operation with
`signature: "0x"` under the configured entry-point address/version via
`getUserOperationHash`, have the owner sign that raw digest through the
`signMessage` action, then the version switch. -/
def accSignUserOperation (acc : Account) (env : Env) (s : AccountState)
    (p : SignUserOpParams) : Except JsError SigVal × AccountState × List Effect :=
  let (cid, s1, e1) :=
    match p.chainId with
    | some c => (c, s, ([] : List Effect))
    | none => getMemoizedChainId acc env s
  let hash : Digest := .userOpHash { p.userOperation with signature := [] }
    acc.entryPoint.address acc.entryPoint.version cid
  let signature := Sig.rawSig hash
  let es := e1 ++ [.ownerSignRaw]
  (if acc.version = "1.1.0" then .ok (.plain signature)
   else if acc.version = "2.0.0" then .ok (.tagged [0x00] signature)
   else .error (.error "Unknown Light Account version"), s1, es)

/-- The version-tagging step (step 2 of the spec's signature composition), as each
source function implements it inline: version "1.1.0" returns the raw signature
unmodified, "2.0.0" prefixes the one-byte EOA tag `0x00`, anything else throws. -/
def tagStep (version : String) (signature : Sig) : Except JsError SigVal :=
  if version = "1.1.0" then .ok (.plain signature)
  else if version = "2.0.0" then .ok (.tagged [0x00] signature)
  else .error (.error "Unknown Light Account version")

/-! ## Concrete fixtures

Accounts as `toLightSmartAccount` actually builds them (see the `*_constructible`
lemmas), plus deterministic transport environments. -/

/-- A transport whose chain-id fetch answers 7 and whose sender simulation answers
`0xB`. -/
def env0 : Env :=
  { fetchChainId := 7
    senderAddress := fun _ _ _ => 0xB
    readNonce := fun _ _ _ => 0 }

/-- A transport connected to a network whose reported chain id is 0. -/
def envZero : Env :=
  { fetchChainId := 0
    senderAddress := fun _ _ _ => 0xB
    readNonce := fun _ _ _ => 0 }

/-- Construction parameters: version "1.1.0", client chain statically 1, owner 3,
explicit account address `0xA`. -/
def params110 : Params :=
  { clientChain := some 1, owner := 3, version := "1.1.0", address := some 0xA }

/-- As `params110` but version "2.0.0". -/
def params200 : Params :=
  { clientChain := some 1, owner := 3, version := "2.0.0", address := some 0xA }

/-- As `params110` but with a runtime version string outside the supported set and
an explicit factory address (so construction itself succeeds). -/
def paramsBad : Params :=
  { clientChain := some 1, owner := 3, version := "9.9.9",
    factoryAddress := some 0xF, address := some 0xA }

/-- The account `toLightSmartAccount params110` builds. -/
def acct110 : Account :=
  { clientChain := some 1, entryPoint := mkEntryPoint none, ownerAddress := 3,
    version := "1.1.0",
    factoryAddress := 0x00004EC70002a32400f8ae005A26081065620D20,
    index := 0, nonceKey := none }

/-- The account `toLightSmartAccount params200` builds. -/
def acct200 : Account :=
  { acct110 with
    version := "2.0.0",
    factoryAddress := 0x0000000000400CdFef5E2714E63d8040b700BC24 }

/-- The account `toLightSmartAccount paramsBad` builds. -/
def acctBad : Account :=
  { acct110 with version := "9.9.9", factoryAddress := 0xF }

/-- As `acct110` but on a client with no statically known chain. -/
def acctNoChain : Account := { acct110 with clientChain := none }

/-- Closure state with the explicit address `0xA` set and no cached chain id
(the state all fixtures above start in). -/
def stA : AccountState := { accountAddress := some 0xA, chainId := none }

/-- Closure state with no address resolved and no cached chain id. -/
def stNone : AccountState := { accountAddress := none, chainId := none }

theorem acct110_constructible : toLightSmartAccount params110 = .ok (acct110, stA) := rfl

theorem acct200_constructible : toLightSmartAccount params200 = .ok (acct200, stA) := rfl

theorem acctBad_constructible : toLightSmartAccount paramsBad = .ok (acctBad, stA) := rfl

/-! ## Shared lemmas -/

/-- The factory args agree with the standalone `getAccountInitCode`, whose
owner-missing guard is unreachable from the account closure. -/
theorem getFactoryArgs_agrees (acc : Account) :
    getAccountInitCode (some acc.ownerAddress) acc.index = .ok (getFactoryArgs acc).2 :=
  rfl

/-! ## Claims -/

/-- C3, counterexample: on the empty call list `encodeCalls` does fail, but with a
`TypeError` from reading `calls[0].to` off `undefined`, not with the dedicated
`InvalidInput` ("no calls to encode") error the claim names. -/
theorem c3_encodeCalls_empty_counterexample :
    (encodeCalls []).1 = .error (.typeError "Cannot read properties of undefined") ∧
    (encodeCalls []).1 ≠ .error (.invalidInput "no calls to encode") := by
  decide

/-- C3 (amended): for the empty call list, `encodeCalls` fails — by reading a
property of the missing `calls[0]` (a runtime `TypeError`), not via a dedicated
`InvalidInput` error — performs no network call, and returns no encoding. -/
theorem c3_encodeCalls_empty_amended :
    (encodeCalls []).1 = .error (.typeError "Cannot read properties of undefined") ∧
    (encodeCalls []).2.all (fun e => !e.isNetwork) = true ∧
    ∀ cd, (encodeCalls []).1 ≠ .ok cd := by
  refine ⟨by decide, by decide, fun cd h => ?_⟩
  simp [encodeCalls] at h

/-- C5: a non-empty call list encodes as the claim states: a singleton via the
single-call `execute` selector with value defaulting to 0 and data to empty, and a
longer list via `executeBatch` over the three mapped arrays in input order with the
same element-wise defaults. -/
theorem c5_encodeCalls_nonempty (calls : List CallStruct) (hne : calls ≠ []) :
    (calls.length = 1 →
      (encodeCalls calls).1 = .ok (.execute (calls.head hne).dest
        ((calls.head hne).value.getD 0) ((calls.head hne).data.getD []))) ∧
    (calls.length > 1 →
      (encodeCalls calls).1 = .ok (.executeBatch (calls.map (·.dest))
        (calls.map (fun a => a.value.getD 0))
        (calls.map (fun a => a.data.getD [])))) := by
  match calls with
  | [] => exact absurd rfl hne
  | [c] =>
    refine ⟨fun _ => ?_, fun h => absurd h (by simp)⟩
    simp [encodeCalls]
  | c1 :: c2 :: rest =>
    refine ⟨fun h => by simp at h, fun _ => ?_⟩
    simp [encodeCalls]

/-- C5 witness: both branches of `c5_encodeCalls_nonempty` evaluated at concrete
call lists. -/
theorem c5_encodeCalls_nonempty_witness :
    ([⟨1, some 2, some [3]⟩] : List CallStruct) ≠ [] ∧
    (encodeCalls [⟨1, some 2, some [3]⟩]).1 = .ok (.execute 1 2 [3]) ∧
    ([⟨1, none, none⟩, ⟨4, some 5, none⟩] : List CallStruct) ≠ [] ∧
    (encodeCalls [⟨1, none, none⟩, ⟨4, some 5, none⟩]).1 =
      .ok (.executeBatch [1, 4] [0, 5] [[], []]) :=
  ⟨by decide,
   (c5_encodeCalls_nonempty [⟨1, some 2, some [3]⟩] (by decide)).1 (by decide),
   by decide,
   (c5_encodeCalls_nonempty [⟨1, none, none⟩, ⟨4, some 5, none⟩] (by decide)).2
     (by decide)⟩

/-- C10: in the `entryPoint` construction, a supplied `parameters.entryPoint.abi`
(an array, hence truthy as the ternary's condition after `??`) yields
`entryPoint06Abi` regardless of its value and of the version; with no abi supplied,
the version comparison decides: `entryPoint06Abi` exactly for version "0.6", else
`entryPoint07Abi`. -/
theorem c10_entryPointAbi (ep : Option EPParams) :
    (∀ a, ep.bind (·.abi) = some a → (mkEntryPoint ep).abi = .entryPoint06Abi) ∧
    (ep.bind (·.abi) = none →
      (mkEntryPoint ep).abi =
        (if (ep.bind (·.version)).getD .v07 = .v06 then .entryPoint06Abi
         else .entryPoint07Abi)) := by
  constructor
  · intro a h
    simp [mkEntryPoint, h]
  · intro h
    simp [mkEntryPoint, h]

/-- C10 witness: supplying the 0.7 abi together with version "0.7" still yields
`entryPoint06Abi`; supplying no entry point at all yields `entryPoint07Abi`. -/
theorem c10_entryPointAbi_witness :
    ((some { abi := some .entryPoint07Abi, version := some .v07 } : Option EPParams).bind
        (·.abi) = some .entryPoint07Abi) ∧
    (mkEntryPoint (some { abi := some .entryPoint07Abi, version := some .v07 })).abi =
      .entryPoint06Abi ∧
    ((none : Option EPParams).bind (·.abi) = none) ∧
    (mkEntryPoint none).abi = .entryPoint07Abi :=
  ⟨by decide,
   (c10_entryPointAbi (some { abi := some .entryPoint07Abi, version := some .v07 })).1
     .entryPoint07Abi (by decide),
   by decide,
   by
     have h := (c10_entryPointAbi none).2 (by decide)
     simpa using h⟩

/-- C6: `getAddress` is memoized.  When the state already holds an address (in
particular the explicit construction-time address), it is returned unchanged with
no external interaction; otherwise exactly one sender-address simulation runs, its
result is cached, and the immediately following call returns that cached value with
no interaction, so cold and cached calls agree. -/
theorem c6_getAddress_memoized (acc : Account) (env : Env) :
    (∀ a s, s.accountAddress = some a → getAddress acc env s = (a, s, [])) ∧
    (∀ s, s.accountAddress = none →
      (getAddress acc env s).2.2 = [.senderAddressSim] ∧
      (getAddress acc env s).2.1.accountAddress = some (getAddress acc env s).1 ∧
      getAddress acc env (getAddress acc env s).2.1 =
        ((getAddress acc env s).1, (getAddress acc env s).2.1, [])) := by
  constructor
  · intro a s h
    simp [getAddress, h]
  · intro s h
    refine ⟨?_, ?_, ?_⟩ <;> simp [getAddress, getFactoryArgs, h]

/-- C6 witness: the explicit-address fast path at `stA`, and the derive-then-cache
path at `stNone`, both under `env0`. -/
theorem c6_getAddress_memoized_witness :
    stA.accountAddress = some 0xA ∧
    getAddress acct110 env0 stA = (0xA, stA, []) ∧
    stNone.accountAddress = none ∧
    (getAddress acct110 env0 stNone).2.2 = [Effect.senderAddressSim] ∧
    getAddress acct110 env0 (getAddress acct110 env0 stNone).2.1 =
      ((getAddress acct110 env0 stNone).1, (getAddress acct110 env0 stNone).2.1, []) :=
  ⟨rfl,
   (c6_getAddress_memoized acct110 env0).1 0xA stA rfl,
   rfl,
   ((c6_getAddress_memoized acct110 env0).2 stNone rfl).1,
   ((c6_getAddress_memoized acct110 env0).2 stNone rfl).2.2⟩

/-- C8: `getStubSignature` is deterministic — its result ignores the environment and
the mutable state, touches no collaborator — and the placeholder has the claimed
shape: the raw 65-byte constant for version "1.1.0", the same constant behind the
one-byte `0x00` EOA tag (66 bytes) for "2.0.0". -/
theorem c8_getStubSignature (acc : Account) (env env2 : Env) (s s2 : AccountState) :
    (getStubSignature acc env s).1 = (getStubSignature acc env2 s2).1 ∧
    (getStubSignature acc env s).2.1 = s ∧
    (getStubSignature acc env s).2.2 = [] ∧
    (acc.version = "1.1.0" →
      (getStubSignature acc env s).1 = .ok stubSignatureBytes ∧
      stubSignatureBytes.length = 65) ∧
    (acc.version = "2.0.0" →
      (getStubSignature acc env s).1 = .ok (0x00 :: stubSignatureBytes) ∧
      (0x00 :: stubSignatureBytes).length = 66) := by
  refine ⟨rfl, rfl, rfl, fun h => ⟨?_, by decide⟩, fun h => ⟨?_, by decide⟩⟩ <;>
    simp [getStubSignature, h]

/-- C8 witness: the stub evaluated on the 1.1.0 and 2.0.0 fixture accounts, under
distinct environments and states. -/
theorem c8_getStubSignature_witness :
    acct110.version = "1.1.0" ∧
    (getStubSignature acct110 env0 stA).1 = (getStubSignature acct110 envZero stNone).1 ∧
    (getStubSignature acct110 env0 stA).1 = .ok stubSignatureBytes ∧
    acct200.version = "2.0.0" ∧
    (getStubSignature acct200 env0 stA).1 = .ok (0x00 :: stubSignatureBytes) ∧
    (0x00 :: stubSignatureBytes).length = 66 :=
  ⟨rfl,
   (c8_getStubSignature acct110 env0 envZero stA stNone).1,
   ((c8_getStubSignature acct110 env0 env0 stA stA).2.2.2.1 rfl).1,
   rfl,
   ((c8_getStubSignature acct200 env0 env0 stA stA).2.2.2.2 rfl).1,
   ((c8_getStubSignature acct200 env0 env0 stA stA).2.2.2.2 rfl).2⟩

/-- C9, counterexample: on a client with no static chain and a network whose chain id
is 0, the first `getMemoizedChainId` call fetches — and so does the second, because
the cached `0` is falsy in `if (chainId)`.  The chain id is thus fetched more than
once for the Account's lifetime, against the claim. -/
theorem c9_chainId_counterexample :
    (getMemoizedChainId acctNoChain envZero stA).2.2 = [Effect.fetchChainId] ∧
    (getMemoizedChainId acctNoChain envZero
      (getMemoizedChainId acctNoChain envZero stA).2.1).2.2 = [Effect.fetchChainId] := by
  decide

/-- C9 (amended): a statically known client chain id is used with no fetch; with no
static chain id, the first call fetches and caches; and a later call returns the
cached value with no further fetch provided the cached id is non-zero — a resolved
chain id of 0 is falsy and is re-resolved (on the fetch path, re-fetched) on every
call. -/
theorem c9_chainId_amended (acc : Account) (env : Env) (s : AccountState) :
    (∀ cid, acc.clientChain = some cid →
      (getMemoizedChainId acc env s).2.2 = [] ∧
      (s.chainId = none →
        getMemoizedChainId acc env s = (cid, { s with chainId := some cid }, []))) ∧
    (acc.clientChain = none → s.chainId = none →
      getMemoizedChainId acc env s =
        (env.fetchChainId, { s with chainId := some env.fetchChainId },
         [.fetchChainId])) ∧
    (∀ c, s.chainId = some c → c ≠ 0 → getMemoizedChainId acc env s = (c, s, [])) := by
  refine ⟨fun cid hc => ⟨?_, fun hs => ?_⟩, fun hc hs => ?_, fun c hs hc => ?_⟩
  · by_cases ht : jsTruthyNum s.chainId = true
    · simp [getMemoizedChainId, ht]
    · simp [getMemoizedChainId, ht, hc]
  · simp [getMemoizedChainId, hs, jsTruthyNum, hc]
  · simp [getMemoizedChainId, hs, jsTruthyNum, hc]
  · simp [getMemoizedChainId, hs, jsTruthyNum, hc]

/-- C9 witness: `c9_chainId_amended` evaluated at the static-chain fixture (chain 1,
no fetch), at the no-static-chain fixture under `env0` (one fetch, cached 7), and at
the cached non-zero state. -/
theorem c9_chainId_amended_witness :
    acct110.clientChain = some 1 ∧
    stA.chainId = none ∧
    getMemoizedChainId acct110 env0 stA = (1, { stA with chainId := some 1 }, []) ∧
    acctNoChain.clientChain = none ∧
    getMemoizedChainId acctNoChain env0 stA =
      (7, { stA with chainId := some 7 }, [Effect.fetchChainId]) ∧
    ({ stA with chainId := some 7 } : AccountState).chainId = some 7 ∧
    getMemoizedChainId acctNoChain env0 { stA with chainId := some 7 } =
      (7, { stA with chainId := some 7 }, []) :=
  ⟨rfl, rfl,
   ((c9_chainId_amended acct110 env0 stA).1 1 rfl).2 rfl,
   rfl,
   by
     have h := (c9_chainId_amended acctNoChain env0 stA).2.1 rfl rfl
     simpa [env0] using h,
   rfl,
   (c9_chainId_amended acctNoChain env0 { stA with chainId := some 7 }).2.2 7 rfl
     (by decide)⟩

/-- C1, counterexample: on the 1.1.0 fixture (chain id 1, account address `0xA`),
`signUserOperation` does not produce the wrapper-then-tag composition the claim
requires: its owner signature is a raw `signMessage` over the operation hash, not a
`signWith1271WrapperV1` typed-data signature over it. -/
theorem c1_signatureComposition_counterexample :
    (accSignUserOperation acct110 env0 stA { chainId := some 1 }).1 ≠
      tagStep acct110.version (signWith1271WrapperV1 1 0xA
        (.userOpHash ({} : UserOp) entryPoint07Address .v07 1)) := by
  decide

/-- C1 (amended): `signMessage` and `signTypedData` apply the identical composition —
the EIP-712 LightAccount wrapper (step 1) over the hash of their input, then the
version tag (step 2) — differing only in the pre-step-1 hash; `signUserOperation`
skips step 1 and applies only step 2 to the owner's raw signature over the
operation hash. -/
theorem c1_signatureComposition_amended (acc : Account) (env : Env) (s : AccountState)
    (message : Bytes) (typedData : Nat) (p : SignUserOpParams) :
    (accSignMessage acc env s message).1 =
      tagStep acc.version (signWith1271WrapperV1 (getMemoizedChainId acc env s).1
        (getAddress acc env (getMemoizedChainId acc env s).2.1).1
        (.hashMessage message)) ∧
    (accSignTypedData acc env s typedData).1 =
      tagStep acc.version (signWith1271WrapperV1 (getMemoizedChainId acc env s).1
        (getAddress acc env (getMemoizedChainId acc env s).2.1).1
        (.hashTypedData typedData)) ∧
    (accSignUserOperation acc env s p).1 =
      tagStep acc.version (.rawSig (.userOpHash { p.userOperation with signature := [] }
        acc.entryPoint.address acc.entryPoint.version
        (match p.chainId with
         | some c => c
         | none => (getMemoizedChainId acc env s).1))) := by
  rcases hgc : getMemoizedChainId acc env s with ⟨cid, s1, e1⟩
  rcases hga : getAddress acc env s1 with ⟨addr, s2, e2⟩
  refine ⟨?_, ?_, ?_⟩
  · simp [accSignMessage, tagStep, hgc, hga]
  · simp [accSignTypedData, tagStep, hgc, hga]
  · cases hpc : p.chainId <;> simp [accSignUserOperation, tagStep, hgc, hpc]

/-- C2: `signUserOperation` hashes the operation with its signature field set to the
empty "0x" under the configured entry-point address and version and the resolved
chain id (the explicit parameter when given, else the memoized one), and the raw
owner signature is over exactly that hash; the 0.6 and 0.7 hashing rules are
distinct inputs to the hash collaborator and never conflated. -/
theorem c2_signUserOperation_hash (acc : Account) (env : Env) (s : AccountState)
    (p : SignUserOpParams) :
    (accSignUserOperation acc env s p).1 =
      tagStep acc.version (.rawSig (.userOpHash { p.userOperation with signature := [] }
        acc.entryPoint.address acc.entryPoint.version
        (match p.chainId with
         | some c => c
         | none => (getMemoizedChainId acc env s).1))) ∧
    (∀ op a c, Digest.userOpHash op a .v06 c ≠ Digest.userOpHash op a .v07 c) := by
  constructor
  · rcases hgc : getMemoizedChainId acc env s with ⟨cid, s1, e1⟩
    cases hpc : p.chainId <;> simp [accSignUserOperation, tagStep, hgc, hpc]
  · intro op a c h
    simp at h

/-- C4, counterexample: on an account whose runtime version tag is "9.9.9" (built by
`toLightSmartAccount` with an explicit factory address), `signUserOperation` does
throw "Unknown Light Account version" — but the owner-key signature over the
operation hash has already been requested when the switch falls through, against
the claim's "before any signing attempt". -/
theorem c4_unknownVersion_counterexample :
    (accSignUserOperation acctBad env0 stA {}).1 =
      .error (.error "Unknown Light Account version") ∧
    Effect.ownerSignRaw ∈ (accSignUserOperation acctBad env0 stA {}).2.2 := by
  decide

/-- C4 (amended): for every account version outside the supported set,
`signUserOperation` fails with the unknown-version error and never silently uses a
default encoding — but only after the owner-key signature has been requested (the
raw signature is computed and then discarded when the version switch throws). -/
theorem c4_unknownVersion_amended (acc : Account) (env : Env) (s : AccountState)
    (p : SignUserOpParams) (h1 : acc.version ≠ "1.1.0") (h2 : acc.version ≠ "2.0.0") :
    (accSignUserOperation acc env s p).1 =
      .error (.error "Unknown Light Account version") ∧
    Effect.ownerSignRaw ∈ (accSignUserOperation acc env s p).2.2 := by
  rcases hgc : getMemoizedChainId acc env s with ⟨cid, s1, e1⟩
  cases hpc : p.chainId <;> simp [accSignUserOperation, hgc, hpc, h1, h2]

/-- C4 witness: `c4_unknownVersion_amended` at the "9.9.9" fixture. -/
theorem c4_unknownVersion_witness :
    acctBad.version ≠ "1.1.0" ∧ acctBad.version ≠ "2.0.0" ∧
    (accSignUserOperation acctBad env0 stNone {}).1 =
      .error (.error "Unknown Light Account version") :=
  ⟨by decide, by decide,
   (c4_unknownVersion_amended acctBad env0 stNone {} (by decide) (by decide)).1⟩

/-- C7: in all three signing paths the version-tagging step returns the raw owner
signature unmodified for account version "1.1.0", and prefixed with the one-byte
EOA signer tag `0x00` for version "2.0.0". -/
theorem c7_versionTagging (acc : Account) (env : Env) (s : AccountState)
    (message : Bytes) (typedData : Nat) (p : SignUserOpParams) :
    (acc.version = "1.1.0" →
      (accSignMessage acc env s message).1 =
        .ok (.plain (signWith1271WrapperV1 (getMemoizedChainId acc env s).1
          (getAddress acc env (getMemoizedChainId acc env s).2.1).1
          (.hashMessage message))) ∧
      (accSignTypedData acc env s typedData).1 =
        .ok (.plain (signWith1271WrapperV1 (getMemoizedChainId acc env s).1
          (getAddress acc env (getMemoizedChainId acc env s).2.1).1
          (.hashTypedData typedData))) ∧
      (accSignUserOperation acc env s p).1 =
        .ok (.plain (.rawSig (.userOpHash { p.userOperation with signature := [] }
          acc.entryPoint.address acc.entryPoint.version
          (match p.chainId with
           | some c => c
           | none => (getMemoizedChainId acc env s).1))))) ∧
    (acc.version = "2.0.0" →
      (accSignMessage acc env s message).1 =
        .ok (.tagged [0x00] (signWith1271WrapperV1 (getMemoizedChainId acc env s).1
          (getAddress acc env (getMemoizedChainId acc env s).2.1).1
          (.hashMessage message))) ∧
      (accSignTypedData acc env s typedData).1 =
        .ok (.tagged [0x00] (signWith1271WrapperV1 (getMemoizedChainId acc env s).1
          (getAddress acc env (getMemoizedChainId acc env s).2.1).1
          (.hashTypedData typedData))) ∧
      (accSignUserOperation acc env s p).1 =
        .ok (.tagged [0x00] (.rawSig (.userOpHash { p.userOperation with signature := [] }
          acc.entryPoint.address acc.entryPoint.version
          (match p.chainId with
           | some c => c
           | none => (getMemoizedChainId acc env s).1))))) := by
  rcases hgc : getMemoizedChainId acc env s with ⟨cid, s1, e1⟩
  rcases hga : getAddress acc env s1 with ⟨addr, s2, e2⟩
  constructor <;> intro hv <;> refine ⟨?_, ?_, ?_⟩
  · simp [accSignMessage, hgc, hga, hv]
  · simp [accSignTypedData, hgc, hga, hv]
  · cases hpc : p.chainId <;> simp [accSignUserOperation, hgc, hpc, hv]
  · simp [accSignMessage, hgc, hga, hv]
  · simp [accSignTypedData, hgc, hga, hv]
  · cases hpc : p.chainId <;> simp [accSignUserOperation, hgc, hpc, hv]

/-- C7 witness: the tagging step observed concretely on the 1.1.0 and 2.0.0 fixture
accounts for `signMessage`. -/
theorem c7_versionTagging_witness :
    acct110.version = "1.1.0" ∧
    (accSignMessage acct110 env0 stA [1]).1 =
      .ok (.plain (signWith1271WrapperV1 1 0xA (.hashMessage [1]))) ∧
    acct200.version = "2.0.0" ∧
    (accSignMessage acct200 env0 stA [1]).1 =
      .ok (.tagged [0x00] (signWith1271WrapperV1 1 0xA (.hashMessage [1]))) :=
  ⟨rfl,
   by
     have h := ((c7_versionTagging acct110 env0 stA [1] 0 {}).1 rfl).1
     simpa [getMemoizedChainId, getAddress, acct110, stA, jsTruthyNum] using h,
   rfl,
   by
     have h := ((c7_versionTagging acct200 env0 stA [1] 0 {}).2 rfl).1
     simpa [getMemoizedChainId, getAddress, acct200, acct110, stA, jsTruthyNum] using h⟩
